import Mathlib

/-
Verification of the fawa collaborative-canvas session engine.

The definitions below are a shallow embedding of the canvas service code:

* `DrawEvent`, `History`, `ClientDrawResponse` embed the wire structures
  (Newcanva event model / canvaxservice proto wrappers).
* `addToHistory`, `clearHistory` embed the bounded-history mutations of the
  canvaxservice handler and the legacy handler (identical in both).
* `chanSend` embeds a Go send on a buffered channel of capacity `cap`:
  the send completes (`some`) only when the buffer has room, otherwise the
  producer blocks, embedded as `none` (the step cannot complete).
* `trySend` embeds the `select { case ch <- m: ... default: }` non-blocking
  send used by the legacy `broadcastToClients` for WebTransport clients:
  on a full buffer the message is dropped and execution continues.
* `collaborateStep` embeds the per-message body of `Collaborate`
  (canvaxservice handler), `handleWSEvent` the per-message body of the
  legacy `handleWebSocketMessages`, both branching on the event type.
* `CanvasSession`, `sessionAppend`, `processSessionDrawEvent` embed the
  session-based Newcanva handler (`Newcanva/handler.go`), whose
  `processSessionDrawEvent` overwrites the client id, appends to the
  session history unconditionally, and performs a blocking channel send.
* `broadcastToClients` / `handleBroadcasts` / `receivedBy` embed the
  canvaxservice fan-out: the broadcast goroutine drains the feed in FIFO
  order and sends each event to every registered client.
* `writerDeliveries` embeds the Newcanva fan-out: every client runs
  `sessionBroadcastWriter`, i.e. `for event := range session.Broadcast`;
  the per-client writers are competing consumers of the one shared
  channel, so each queued event is received by exactly one client.  The
  choice function `pick` names, for each event index, which registered
  client takes it (any such schedule is allowed by Go channel semantics).
* `sessionCleaner` embeds the registry reaper; durations are in
  nanoseconds, as `time.Duration` is.
* `joinCanvas`, `handleWebSocketGate`, `handleWebTransportGate` embed the
  connection entry points of `Newcanva/handler.go`; the second component
  of the result records whether the registry map was consulted.
* `initialHistoryMessage` embeds the initial-snapshot send guarded by
  `if len(historyCopy) > 0` in the session join paths.
-/

namespace Fawa

/-- Wire-level drawing event (`DrawEvent` in the Newcanva event model;
coordinates and sizes are Go `int`s, `time` is `int64` milliseconds). -/
structure DrawEvent where
  type : String
  color : String
  size : Int
  prevX : Int
  prevY : Int
  currX : Int
  currY : Int
  clientID : String
  time : Int
  deriving DecidableEq

/-- Wire-level history snapshot (`History`). -/
structure History where
  events : List DrawEvent
  deriving DecidableEq

/-- Wire-level server response (`ClientDrawResponse`): either a broadcast
event or an initial history snapshot. -/
structure ClientDrawResponse where
  drawEvent : Option DrawEvent
  initialHistory : Option History
  deriving DecidableEq

/-- `NewDrawEvent` constructor: the server stamps the current time
(`time.Now().UnixMilli()`, passed here as `now`). -/
def NewDrawEvent (eventType color clientID : String)
    (size prevX prevY currX currY : Int) (now : Int) : DrawEvent :=
  { type := eventType, color := color, size := size, prevX := prevX,
    prevY := prevY, currX := currX, currY := currY, clientID := clientID,
    time := now }

/-- The pong reply built in the legacy WebSocket path: only `type`,
`client_id` and `time` are set, the rest are Go zero values. -/
def pongEvent (clientID : String) (now : Int) : DrawEvent :=
  { type := "pong", color := "", size := 0, prevX := 0, prevY := 0,
    currX := 0, currY := 0, clientID := clientID, time := now }

/-- Go send on a buffered channel of capacity `cap`: `ch <- a` completes
only when the buffer has room; on a full buffer the producer blocks,
embedded as `none`. -/
def chanSend {α : Type} (cap : Nat) (buf : List α) (a : α) : Option (List α) :=
  if buf.length < cap then some (buf ++ [a]) else none

/-- Non-blocking send (`select` with a `default` branch): on a full buffer
the message is dropped and the buffer is unchanged. -/
def trySend {α : Type} (cap : Nat) (buf : List α) (a : α) : List α :=
  if buf.length < cap then buf ++ [a] else buf

/-- `addToHistory`: if the history already holds at least 1000 events,
drop the oldest half (`h.history = h.history[len/2:]`), then append. -/
def addToHistory (history : List DrawEvent) (event : DrawEvent) : List DrawEvent :=
  let h := if history.length ≥ 1000 then history.drop (history.length / 2) else history
  h ++ [event]

/-- `clearHistory`: replace the whole history with the one clear event. -/
def clearHistory (clearEvent : DrawEvent) : List DrawEvent :=
  [clearEvent]

/-- Handler-owned shared state of the canvaxservice / legacy handlers:
the drawing history and the contents of the 100-slot broadcast channel. -/
structure HandlerState where
  history : List DrawEvent
  broadcast : List DrawEvent
  deriving DecidableEq

/-- Per-message body of `Collaborate` (canvaxservice handler): overwrite
the client id, then branch on the event type.  A ping is only logged; a
clear is appended, broadcast, and then `clearHistory` replaces the
history; anything else is appended and broadcast.  The returned list
holds direct per-transport replies (recipient, event) — this handler
sends none.  `none` means the blocking `h.broadcast <- drawEvent`
could not complete. -/
def collaborateStep (st : HandlerState) (clientID : String) (event : DrawEvent) :
    Option (HandlerState × List (String × DrawEvent)) :=
  let e := { event with clientID := clientID }
  if event.type = "ping" then
    some (st, [])
  else if event.type = "clear" then
    (chanSend 100 st.broadcast e).map
      (fun b => ({ history := clearHistory e, broadcast := b }, []))
  else
    (chanSend 100 st.broadcast e).map
      (fun b => ({ history := addToHistory st.history e, broadcast := b }, []))

/-- Per-message body of the legacy `handleWebSocketMessages`: identical
classification, except that a ping gets an immediate pong reply written
directly to the originating WebSocket connection. -/
def handleWSEvent (st : HandlerState) (clientID : String) (now : Int) (event : DrawEvent) :
    Option (HandlerState × List (String × DrawEvent)) :=
  let e := { event with clientID := clientID }
  if event.type = "ping" then
    some (st, [(clientID, pongEvent clientID now)])
  else if event.type = "clear" then
    (chanSend 100 st.broadcast e).map
      (fun b => ({ history := clearHistory e, broadcast := b }, []))
  else
    (chanSend 100 st.broadcast e).map
      (fun b => ({ history := addToHistory st.history e, broadcast := b }, []))

/-- One collaborative canvas (`CanvasSession` in `Newcanva/handler.go`):
clients are kept as their ids, the broadcast channel as its queued
contents, `lastActive` in nanoseconds. -/
structure CanvasSession where
  code : String
  clients : List String
  history : List DrawEvent
  broadcast : List DrawEvent
  lastActive : Int
  deriving DecidableEq

/-- The history mutation inside `processSessionDrawEvent`:
`event.ClientID = clientID` followed by
`session.History = append(session.History, event)` — a plain append,
with no size bound and no branch on the event type. -/
def sessionAppend (history : List DrawEvent) (clientID : String) (event : DrawEvent) :
    List DrawEvent :=
  history ++ [{ event with clientID := clientID }]

/-- `processSessionDrawEvent` (`Newcanva/handler.go`): overwrite the
client id, append to the session history, then `session.Broadcast <- event`
(a blocking send on the 100-slot channel) and update `LastActive`.
`none` means the send could not complete (channel full, producer blocked). -/
def processSessionDrawEvent (sess : CanvasSession) (clientID : String) (now : Int)
    (event : DrawEvent) : Option CanvasSession :=
  match chanSend 100 sess.broadcast { event with clientID := clientID } with
  | some b =>
      some { sess with history := sessionAppend sess.history clientID event,
                       broadcast := b, lastActive := now }
  | none => none

/-- `broadcastToClients` (canvaxservice handler): send the event to every
registered client, in map-iteration order over the client set. -/
def broadcastToClients (clients : List String) (event : DrawEvent) :
    List (String × DrawEvent) :=
  clients.map (fun c => (c, event))

/-- The broadcast goroutine (`handleBroadcasts`): drain the feed in FIFO
order, fanning each event out with `broadcastToClients`. -/
def handleBroadcasts (clients : List String) : List DrawEvent → List (String × DrawEvent)
  | [] => []
  | e :: es => broadcastToClients clients e ++ handleBroadcasts clients es

/-- The subsequence of sends addressed to client `c`, in send order. -/
def receivedBy (sends : List (String × DrawEvent)) (c : String) : List DrawEvent :=
  (sends.filter (fun p => p.1 == c)).map Prod.snd

/-- Newcanva fan-out: every client of the session runs
`sessionBroadcastWriter`, i.e. `for event := range session.Broadcast`,
so the writers are competing consumers of the one shared channel and
each queued event is received by exactly one of them.  `pick i` names
the index (into the registered client list) of the consumer that takes
event number `i`; the result is what client `c` receives, in order. -/
def writerDeliveries (clients : List String) (events : List DrawEvent)
    (pick : Nat → Nat) (c : String) : List DrawEvent :=
  ((events.enum).filter (fun p => clients.get? (pick p.1) == some c)).map Prod.snd

/-- `sessionExpiryDuration` = 10 minutes, in nanoseconds (`time.Duration`). -/
def sessionExpiryDuration : Int := 600000000000

/-- One tick of `sessionCleaner`: delete every session with
`clientCount == 0 && now.Sub(session.LastActive) > sessionExpiryDuration`. -/
def sessionCleaner (now : Int) (sessions : List (String × CanvasSession)) :
    List (String × CanvasSession) :=
  sessions.filter
    (fun p => !(p.2.clients.length == 0 && decide (sessionExpiryDuration < now - p.2.lastActive)))

/-- Outcome of a connection entry point, plus the HTTP statuses it can
write (`400 Bad Request`, `404 Not Found`, `200 OK`). -/
inductive HandlerOutcome where
  | badRequest
  | notFound
  | ok
  | proceed (sess : CanvasSession)
  deriving DecidableEq

/-- Read-locked registry lookup `h.Sessions[code]`. -/
def lookupSession (sessions : List (String × CanvasSession)) (code : String) :
    Option CanvasSession :=
  (sessions.find? (fun p => p.1 == code)).map Prod.snd

/-- `JoinCanvas`: no guard on the code — the registry is always consulted
(second component `true`), and a missing code yields `404 Not Found`. -/
def joinCanvas (sessions : List (String × CanvasSession)) (code : String) :
    HandlerOutcome × Bool :=
  match lookupSession sessions code with
  | none => (.notFound, true)
  | some _ => (.ok, true)

/-- Entry gate of `HandleWebSocket`: an empty code is rejected with
`400 Bad Request` before the registry is touched; otherwise the session
is looked up and the connection proceeds or gets `404 Not Found`. -/
def handleWebSocketGate (sessions : List (String × CanvasSession)) (code : String) :
    HandlerOutcome × Bool :=
  if code = "" then (.badRequest, false)
  else
    match lookupSession sessions code with
    | none => (.notFound, true)
    | some s => (.proceed s, true)

/-- Entry gate of `HandleWebTransport`: same guard as the WebSocket gate. -/
def handleWebTransportGate (sessions : List (String × CanvasSession)) (code : String) :
    HandlerOutcome × Bool :=
  if code = "" then (.badRequest, false)
  else
    match lookupSession sessions code with
    | none => (.notFound, true)
    | some s => (.proceed s, true)

/-- The initial-snapshot send of the session join paths: the snapshot
message is built and written only under `if len(historyCopy) > 0`;
an empty history produces no message at all. -/
def initialHistoryMessage (history : List DrawEvent) : Option ClientDrawResponse :=
  if 0 < history.length then
    some { drawEvent := none, initialHistory := some { events := history } }
  else
    none

/-- `n` consecutive inbound events on one session, each appended through
the history mutation of `processSessionDrawEvent`. -/
def appendRun (clientID : String) (event : DrawEvent) : Nat → List DrawEvent
  | 0 => []
  | n + 1 => sessionAppend (appendRun clientID event n) clientID event

/-- A concrete draw event. -/
def ev0 : DrawEvent :=
  { type := "draw", color := "red", size := 3, prevX := 0, prevY := 0,
    currX := 1, currY := 1, clientID := "", time := 0 }

/-- A concrete ping event carrying a spoofed client id. -/
def pingEv : DrawEvent :=
  { type := "ping", color := "", size := 0, prevX := 0, prevY := 0,
    currX := 0, currY := 0, clientID := "spoofed", time := 11 }

/-- A concrete clear event. -/
def clearEv : DrawEvent :=
  { type := "clear", color := "", size := 0, prevX := 0, prevY := 0,
    currX := 0, currY := 0, clientID := "", time := 3 }

/-- A concrete draw event carrying a client-supplied timestamp and id. -/
def clientStampedEv : DrawEvent :=
  { type := "draw", color := "blue", size := 2, prevX := 1, prevY := 2,
    currX := 3, currY := 4, clientID := "spoofed1", time := 42 }

/-- A concrete draw event carrying a spoofed client id. -/
def spoofEv : DrawEvent :=
  { type := "draw", color := "red", size := 1, prevX := 0, prevY := 0,
    currX := 5, currY := 5, clientID := "attacker", time := 99 }

/-- A session with two clients, empty history and empty feed. -/
def emptySession : CanvasSession :=
  { code := "ABC123", clients := ["c1", "c2"], history := [], broadcast := [],
    lastActive := 0 }

/-- A session whose broadcast feed holds 100 queued events (full). -/
def fullFeedSession : CanvasSession :=
  { code := "ABC123", clients := ["c1"], history := [],
    broadcast := List.replicate 100 ev0, lastActive := 0 }

/-- A session with three draw events in its history. -/
def session3 : CanvasSession :=
  { code := "ABC123", clients := ["c1"], history := [ev0, ev0, ev0],
    broadcast := [], lastActive := 0 }

/-- A clientless session last active at time 0. -/
def idleSession : CanvasSession :=
  { code := "AAAAAA", clients := [], history := [], broadcast := [],
    lastActive := 0 }

/-- A session with one attached client, last active at time 0. -/
def occupiedSession : CanvasSession :=
  { code := "BBBBBB", clients := ["c1"], history := [], broadcast := [],
    lastActive := 0 }

/-- Empty handler state. -/
def st0 : HandlerState :=
  { history := [], broadcast := [] }

/-- The session produced by `processSessionDrawEvent emptySession "c9" 3 spoofEv`. -/
def appendedSpoofSession : CanvasSession :=
  { emptySession with
      history := [{ spoofEv with clientID := "c9" }],
      broadcast := [{ spoofEv with clientID := "c9" }],
      lastActive := 3 }

-- ## Helper lemmas

theorem addToHistory_le (h : List DrawEvent) (e : DrawEvent) (hle : h.length ≤ 1000) :
    (addToHistory h e).length ≤ 1000 := by
  unfold addToHistory
  by_cases hc : h.length ≥ 1000
  · simp [hc]
    omega
  · simp [hc]
    omega

theorem foldl_addToHistory_le (events : List DrawEvent) :
    ∀ h : List DrawEvent, h.length ≤ 1000 → ((events.foldl addToHistory h).length ≤ 1000) := by
  induction events with
  | nil => intro h hle; simpa using hle
  | cons e es ih =>
      intro h hle
      exact ih (addToHistory h e) (addToHistory_le h e hle)

theorem appendRun_length (cid : String) (e : DrawEvent) (n : Nat) :
    (appendRun cid e n).length = n := by
  induction n with
  | zero => rfl
  | succ n ih => simp [appendRun, sessionAppend, ih]

-- ## Claim theorems

/-- Claim C1 (corrected), counterexample: the session history appended by
`processSessionDrawEvent` has no halving-truncation rule at all — after
1001 consecutive appends on one session the history holds 1001 events,
so its length exceeds 1000 immediately after the 1001st append. -/
theorem session_history_exceeds_1000 :
    1000 < (appendRun "client01" ev0 1001).length := by
  rw [appendRun_length]
  omega

/-- Claim C1 (corrected), amended: the halving-truncation rule lives in
`addToHistory` (the canvaxservice and legacy handlers): for every
sequence of events appended through `addToHistory`, starting from the
empty history, the length is at most 1000 immediately after each append.
Session histories (`processSessionDrawEvent`) are unbounded. -/
theorem addToHistory_history_bounded (events : List DrawEvent) :
    (events.foldl addToHistory []).length ≤ 1000 :=
  foldl_addToHistory_le events [] (by simp)

/-- Claim C2 (corrected), counterexample: with the session's 100-slot
broadcast feed full, the inbound `session.Broadcast <- event` in
`processSessionDrawEvent` is a plain blocking send — the step cannot
complete (`none`); the event is not dropped and the producer waits. -/
theorem processSessionDrawEvent_blocks_on_full_feed :
    processSessionDrawEvent fullFeedSession "c1" 5 ev0 = none := by
  rfl

/-- Claim C2 (corrected), amended: the inbound publish blocks rather than
drops: `processSessionDrawEvent` fails to complete exactly when the feed
already holds 100 events, and on a full buffer `chanSend` (the blocking
send) yields no completed step while the drop-on-full policy exists only
in `trySend`, the non-blocking per-client send used by the legacy
`broadcastToClients` for WebTransport clients, which leaves a full
buffer unchanged. -/
theorem publish_blocks_and_drop_is_outbound_only (sess : CanvasSession) (cid : String)
    (now : Int) (e : DrawEvent) (buf : List DrawEvent) (hfull : 100 ≤ buf.length) :
    (processSessionDrawEvent sess cid now e = none ↔ 100 ≤ sess.broadcast.length)
    ∧ chanSend 100 buf e = none ∧ trySend 100 buf e = buf := by
  refine ⟨?_, ?_, ?_⟩
  · unfold processSessionDrawEvent chanSend
    by_cases hb : sess.broadcast.length < 100
    · simp only [if_pos hb]
      constructor
      · intro h
        exact absurd h (by simp)
      · intro h
        omega
    · simp only [if_neg hb]
      constructor
      · intro _
        omega
      · intro _
        trivial
  · unfold chanSend
    rw [if_neg (by omega)]
  · unfold trySend
    rw [if_neg (by omega)]

/-- Witness for `publish_blocks_and_drop_is_outbound_only` at a full feed. -/
theorem publish_blocks_and_drop_is_outbound_only_witness :
    (processSessionDrawEvent fullFeedSession "c1" 5 ev0 = none
      ↔ 100 ≤ fullFeedSession.broadcast.length)
    ∧ chanSend 100 (List.replicate 100 ev0) ev0 = none
    ∧ trySend 100 (List.replicate 100 ev0) ev0 = List.replicate 100 ev0 :=
  publish_blocks_and_drop_is_outbound_only fullFeedSession "c1" 5 ev0
    (List.replicate 100 ev0) (by simp)

theorem receivedBy_append (s t : List (String × DrawEvent)) (c : String) :
    receivedBy (s ++ t) c = receivedBy s c ++ receivedBy t c := by
  simp [receivedBy]

theorem receivedBy_broadcastToClients (clients : List String) (e : DrawEvent) (c : String) :
    receivedBy (broadcastToClients clients e) c = List.replicate (clients.count c) e := by
  induction clients with
  | nil => rfl
  | cons x xs ih =>
      by_cases hx : x = c
      · subst hx
        simp [broadcastToClients, receivedBy, List.count_cons] at *
        simpa [List.replicate_succ] using ih
      · have hx2 : ¬(x == c) = true := by simpa using hx
        simp [broadcastToClients, receivedBy, List.count_cons, hx, hx2] at *
        simpa using ih

/-- Claim C3 (corrected), counterexample: in the session-based handler
every client's `sessionBroadcastWriter` ranges over the one shared
`session.Broadcast` channel, so each queued event is consumed by exactly
one writer.  Under the schedule in which registered client "aa" (the
originator) takes the event, the other registered client "bb" receives
nothing at all — the appended event is not delivered to every other
registered client. -/
theorem session_broadcast_misses_other_client :
    writerDeliveries ["aa", "bb"] [ev0] (fun _ => 0) "bb" = [] := by
  rfl

/-- Claim C3 (corrected), amended: in the canvaxservice bidi-stream
handler, the broadcast goroutine drains the feed in FIFO order and sends
every event to every currently-registered client — including the
originator, not excluding it — so each registered client receives the
appended events in exactly their append order, and unregistered clients
receive nothing.  In the session-based Newcanva handler no such
guarantee holds: each event is received by exactly one of the competing
per-client writers. -/
theorem broadcast_delivers_all_in_order (clients : List String) (hnd : clients.Nodup)
    (events : List DrawEvent) (c : String) :
    receivedBy (handleBroadcasts clients events) c = if c ∈ clients then events else [] := by
  induction events with
  | nil =>
      simp [handleBroadcasts, receivedBy]
  | cons e es ih =>
      rw [handleBroadcasts, receivedBy_append, receivedBy_broadcastToClients, ih]
      by_cases hc : c ∈ clients
      · rw [List.count_eq_one_of_mem hnd hc]
        simp [hc]
      · rw [List.count_eq_zero_of_not_mem hc]
        simp [hc]

/-- Witness for `broadcast_delivers_all_in_order`: two registered clients,
two appended events, delivered in order to the second client. -/
theorem broadcast_delivers_all_in_order_witness :
    receivedBy (handleBroadcasts ["aa", "bb"] [ev0, clearEv]) "bb"
      = if "bb" ∈ ["aa", "bb"] then [ev0, clearEv] else [] :=
  broadcast_delivers_all_in_order ["aa", "bb"] (by simp) [ev0, clearEv] "bb"

/-- Claim C4 (corrected), counterexample: the session-based Newcanva
handler has no ping branch at all — a received "ping" event is handed to
`processSessionDrawEvent` like any other event, so it is appended to the
session history and published on the broadcast feed, and no pong reply
is produced. -/
theorem newcanva_ping_appended_and_broadcast :
    (processSessionDrawEvent emptySession "c1" 7 pingEv).map CanvasSession.history
        = some [{ pingEv with clientID := "c1" }]
    ∧ (processSessionDrawEvent emptySession "c1" 7 pingEv).map CanvasSession.broadcast
        = some [{ pingEv with clientID := "c1" }] := by
  constructor <;> rfl

/-- Claim C4 (corrected), amended: in the canvaxservice bidi-stream
handler and the legacy handler a "ping" event is neither appended to
history nor broadcast, and the handler state is unchanged; but only the
legacy WebSocket path replies with a pong carrying the originating
client's id, sent directly to that client alone — the bidi-stream path
sends no reply, and the session-based Newcanva handler appends and
broadcasts pings with no pong. -/
theorem ping_not_appended_pong_on_ws_only (st : HandlerState) (cid : String) (now : Int)
    (e : DrawEvent) (hp : e.type = "ping") :
    handleWSEvent st cid now e = some (st, [(cid, pongEvent cid now)])
    ∧ collaborateStep st cid e = some (st, []) := by
  constructor
  · unfold handleWSEvent
    rw [if_pos hp]
  · unfold collaborateStep
    rw [if_pos hp]

/-- Witness for `ping_not_appended_pong_on_ws_only` at a concrete ping
carrying a spoofed client id. -/
theorem ping_not_appended_pong_on_ws_only_witness :
    handleWSEvent st0 "c1" 7 pingEv = some (st0, [("c1", pongEvent "c1" 7)])
    ∧ collaborateStep st0 "c1" pingEv = some (st0, []) :=
  ping_not_appended_pong_on_ws_only st0 "c1" 7 pingEv rfl

/-- Claim C5 (corrected), counterexample: an inbound event carrying the
client-supplied timestamp 42 is appended at server time 1000 — the
handler records server time 1000 in the session's `LastActive`, yet the
appended event keeps timestamp 42: only the client id is overwritten,
the timestamp field of the payload is not. -/
theorem appended_event_keeps_client_timestamp :
    (processSessionDrawEvent emptySession "c1" 1000 clientStampedEv).map
        (fun s => s.history.map DrawEvent.time) = some [42]
    ∧ (processSessionDrawEvent emptySession "c1" 1000 clientStampedEv).map
        CanvasSession.lastActive = some 1000 := by
  constructor <;> rfl

/-- Claim C5 (corrected), amended: events appended to a session's history
retain every client-supplied field, the timestamp included; on receipt
the server overwrites only the client id.  Server-assigned timestamps
occur only where the server itself constructs an event: `NewDrawEvent`
and the pong reply stamp the current server clock. -/
theorem append_preserves_payload_timestamp (hist : List DrawEvent) (cid : String)
    (e : DrawEvent) (now : Int) (t c i : String) (s a b x y : Int) :
    sessionAppend hist cid e = hist ++ [{ e with clientID := cid }]
    ∧ ({ e with clientID := cid }).time = e.time
    ∧ (NewDrawEvent t c i s a b x y now).time = now
    ∧ (pongEvent cid now).time = now := by
  refine ⟨rfl, ?_, rfl, rfl⟩
  cases e
  rfl

/-- Claim C6 (corrected), counterexample: the session-based Newcanva
handler has no clear branch — after three draw events, a received
"clear" event is simply appended, so a subsequent history snapshot holds
all four events rather than the one-element sequence containing only the
clear event. -/
theorem newcanva_clear_does_not_clear :
    (processSessionDrawEvent session3 "c1" 9 clearEv).map
        (fun s => s.history.length) = some 4 := by
  rfl

/-- Claim C6 (corrected), amended: in the canvaxservice bidi-stream
handler and the legacy handler, processing a "clear" event appends it,
broadcasts it, and then replaces the whole history with the one-element
sequence holding only that clear event (client id overwritten), so a
subsequent snapshot returns exactly that singleton regardless of prior
history length.  The session-based Newcanva handler instead appends the
clear event like any other. -/
theorem clear_retains_only_clear_event (st : HandlerState) (cid : String) (now : Int)
    (e : DrawEvent) (hc : e.type = "clear") (hroom : st.broadcast.length < 100) :
    collaborateStep st cid e
        = some ({ history := [{ e with clientID := cid }],
                  broadcast := st.broadcast ++ [{ e with clientID := cid }] }, [])
    ∧ handleWSEvent st cid now e
        = some ({ history := [{ e with clientID := cid }],
                  broadcast := st.broadcast ++ [{ e with clientID := cid }] }, []) := by
  have hnp : ¬ e.type = "ping" := by
    rw [hc]
    decide
  constructor
  · unfold collaborateStep
    rw [if_neg hnp, if_pos hc]
    unfold chanSend
    rw [if_pos hroom]
    rfl
  · unfold handleWSEvent
    rw [if_neg hnp, if_pos hc]
    unfold chanSend
    rw [if_pos hroom]
    rfl

/-- Witness for `clear_retains_only_clear_event`: a concrete clear event
on the empty handler state. -/
theorem clear_retains_only_clear_event_witness :
    collaborateStep st0 "c1" clearEv
        = some ({ history := [{ clearEv with clientID := "c1" }],
                  broadcast := st0.broadcast ++ [{ clearEv with clientID := "c1" }] }, [])
    ∧ handleWSEvent st0 "c1" 9 clearEv
        = some ({ history := [{ clearEv with clientID := "c1" }],
                  broadcast := st0.broadcast ++ [{ clearEv with clientID := "c1" }] }, []) :=
  clear_retains_only_clear_event st0 "c1" 9 clearEv rfl (by decide)

/-- Claim C7 (confirmed): one reaper tick removes a registered session if
and only if it has zero attached clients and its last-active timestamp
is strictly older than 10 minutes (600000000000 ns); in particular a
session with at least one registered client is never removed, for any
idle duration. -/
theorem reaper_removes_iff_idle_and_clientless (now : Int)
    (sessions : List (String × CanvasSession)) (code : String) (s : CanvasSession)
    (hmem : (code, s) ∈ sessions) :
    ((code, s) ∉ sessionCleaner now sessions
      ↔ (s.clients.length = 0 ∧ sessionExpiryDuration < now - s.lastActive)) := by
  unfold sessionCleaner
  rw [List.mem_filter]
  simp [hmem]
  intro _
  omega

/-- Witness for `reaper_removes_iff_idle_and_clientless`: a clientless
session idle for just over 10 minutes is removed. -/
theorem reaper_removes_iff_idle_and_clientless_witness :
    (("AAAAAA", idleSession) ∉ sessionCleaner 600000000001 [("AAAAAA", idleSession)]
      ↔ (idleSession.clients.length = 0
          ∧ sessionExpiryDuration < 600000000001 - idleSession.lastActive)) :=
  reaper_removes_iff_idle_and_clientless 600000000001 [("AAAAAA", idleSession)]
    "AAAAAA" idleSession (by simp)

/-- Claim C8 (confirmed): whenever `processSessionDrawEvent` completes, the
event appended to the session's history and the event published on its
broadcast feed are one and the same record whose client id has been
overwritten with the server-generated id of the producing connection —
whatever client id the inbound payload carried. -/
theorem session_event_carries_connection_id (sess : CanvasSession) (cid : String)
    (now : Int) (e : DrawEvent) (sess' : CanvasSession)
    (h : processSessionDrawEvent sess cid now e = some sess') :
    sess'.history = sess.history ++ [{ e with clientID := cid }]
    ∧ sess'.broadcast = sess.broadcast ++ [{ e with clientID := cid }]
    ∧ ({ e with clientID := cid }).clientID = cid := by
  unfold processSessionDrawEvent chanSend at h
  by_cases hb : sess.broadcast.length < 100
  · rw [if_pos hb] at h
    simp only [Option.some.injEq] at h
    subst h
    refine ⟨rfl, rfl, ?_⟩
    cases e
    rfl
  · rw [if_neg hb] at h
    exact absurd h (by simp)

/-- Witness for `session_event_carries_connection_id`: an event whose
payload claims client id "attacker" is appended and broadcast with the
connection's id "c9". -/
theorem session_event_carries_connection_id_witness :
    appendedSpoofSession.history = emptySession.history ++ [{ spoofEv with clientID := "c9" }]
    ∧ appendedSpoofSession.broadcast
        = emptySession.broadcast ++ [{ spoofEv with clientID := "c9" }]
    ∧ ({ spoofEv with clientID := "c9" }).clientID = "c9" :=
  session_event_carries_connection_id emptySession "c9" 3 spoofEv appendedSpoofSession rfl

/-- Claim C9 (corrected), counterexample: `JoinCanvas` has no empty-code
guard — a join request with an empty code still performs the registry
lookup (flag `true`) and is rejected as `404 Not Found`, not as an
invalid-argument `400 Bad Request` without lookup. -/
theorem joinCanvas_empty_code_does_lookup :
    joinCanvas [] "" = (HandlerOutcome.notFound, true) := by
  rfl

/-- Claim C9 (corrected), amended: the connect handlers `HandleWebSocket`
and `HandleWebTransport` reject an empty session code immediately with
`400 Bad Request` and without consulting the registry, but the join
check `JoinCanvas` always performs the registry lookup, empty code or
not, and surfaces a missing code as `404 Not Found`. -/
theorem empty_code_rejected_on_connect_paths_only
    (sessions : List (String × CanvasSession)) (code : String) :
    handleWebSocketGate sessions "" = (.badRequest, false)
    ∧ handleWebTransportGate sessions "" = (.badRequest, false)
    ∧ (joinCanvas sessions code).2 = true := by
  refine ⟨rfl, rfl, ?_⟩
  unfold joinCanvas
  cases lookupSession sessions code <;> rfl

/-- Claim C10 (confirmed): the session join paths send the initial-history
snapshot message if and only if the session's history is non-empty at
join time; a client joining a session with empty history receives no
initial message at all. -/
theorem initial_history_sent_iff_nonempty (history : List DrawEvent) :
    initialHistoryMessage history = none ↔ history = [] := by
  unfold initialHistoryMessage
  cases history <;> simp

end Fawa
